import Mathlib

/-!
Verification of `src/tools/monitor_fuzzing.py` (Exepose repository).

The Python module is embedded shallowly:
* Python strings are `List Char` (`PyStr`); `str.strip` is `pyStrip`,
  `str.split(":", 1)` is `splitFirstColon`, `str.isdigit` is the
  `!isEmpty && all isDigit` test.
* The parsed stats dictionary is an association list with Python's
  insert-or-overwrite semantics (`dictInsert`) and `dict.get` lookups
  (`dictGet?` / `dictGetD`).
* Values stored in the dictionary are `FuzzVal` (`int` or `str`),
  mirroring `int(value) if value.strip().isdigit() else value.strip()`.
* I/O failure while reading the stats file is the `none` case of the
  `Option (List PyStr)` input of `read_fuzzer_file` (the Python code
  turns `FileNotFoundError` and any other exception into `None`).
* Unhandled Python exceptions inside a tick (`ValueError` from `int(...)`,
  `TypeError` from `time.localtime(str)`, `AttributeError` from
  `None.get(...)`) are the `Except.error` outcomes of `check_fuzzer_status`.
-/

namespace MonitorFuzzing

/-- A Python string, embedded as its list of characters. -/
abbrev PyStr := List Char

/-- Python `str.strip()`: drop whitespace from both ends. -/
def pyStrip (s : PyStr) : PyStr :=
  ((s.dropWhile Char.isWhitespace).reverse.dropWhile Char.isWhitespace).reverse

/-- Python `s.split(":", 1)` on a string containing a colon: the part
before the first `':'` and the part after it.  (On a string with no
colon it returns `(s, [])`; the caller only uses it under the
`":" in line` guard.) -/
def splitFirstColon : PyStr → PyStr × PyStr
  | [] => ([], [])
  | c :: rest =>
    if c = ':' then ([], rest)
    else ((splitFirstColon rest).1.cons c, (splitFirstColon rest).2)

/-- Numeric value of a string of decimal digits (`int(...)` on an
all-digit string). -/
def digitsToNat (s : PyStr) : Nat :=
  s.foldl (fun acc c => acc * 10 + (c.toNat - 48)) 0

/-- Python `str.isdigit()` over ASCII: non-empty and all decimal digits. -/
def pyIsDigit (s : PyStr) : Bool :=
  !s.isEmpty && s.all Char.isDigit

/-- A value held in the fuzzer-stats dictionary: line 30 of the source
stores either an `int` or a stripped string. -/
inductive FuzzVal
  | int : Int → FuzzVal
  | str : PyStr → FuzzVal
deriving DecidableEq, Repr

/-- Python `int(s)` on a string: strip, optional sign, decimal digits;
`none` is a `ValueError`. -/
def pyIntOfString (s : PyStr) : Option Int :=
  match pyStrip s with
  | [] => none
  | c :: rest =>
    if c = '-' then
      if pyIsDigit rest then some (-(digitsToNat rest : Int)) else none
    else if c = '+' then
      if pyIsDigit rest then some ((digitsToNat rest : Int)) else none
    else
      if pyIsDigit (c :: rest) then some ((digitsToNat (c :: rest) : Int)) else none

/-- Python `int(v)` on a dictionary value: identity on ints, string
conversion on strings (`none` is a `ValueError`). -/
def pyInt : FuzzVal → Option Int
  | .int n => some n
  | .str s => pyIntOfString s

/-- The stats dictionary: insertion-ordered association list with
unique keys, as built by `fuzzer_stats[key] = value`. -/
abbrev FuzzDict := List (PyStr × FuzzVal)

/-- Python `d[k] = v`: overwrite in place if the key exists, append
otherwise. -/
def dictInsert (d : FuzzDict) (k : PyStr) (v : FuzzVal) : FuzzDict :=
  if d.any (fun p => decide (p.1 = k)) then
    d.map (fun p => if p.1 = k then (k, v) else p)
  else
    d ++ [(k, v)]

/-- Python `d.get(k)`: the value at the first matching key, if any. -/
def dictGet? (d : FuzzDict) (k : PyStr) : Option FuzzVal :=
  match d.find? (fun p => decide (p.1 = k)) with
  | some p => some p.2
  | none => none

/-- Python `d.get(k, v0)`. -/
def dictGetD (d : FuzzDict) (k : PyStr) (v0 : FuzzVal) : FuzzVal :=
  (dictGet? d k).getD v0

/-- Line 30's stored value: `int(value) if value.strip().isdigit()
else value.strip()` applied to the already-stripped value. -/
def mkVal (v : PyStr) : FuzzVal :=
  if pyIsDigit v then FuzzVal.int (digitsToNat v) else FuzzVal.str v

/-- Lines 28-30 of `read_fuzzer_file`, for one line of the stats file:
a line contributes a pair exactly when it contains a `':'`; the
stripped line is split at its first colon, the key part is stripped,
and the stripped value is stored as an int when all digits, as a
string otherwise. -/
def parseLine (line : PyStr) : Option (PyStr × FuzzVal) :=
  if ':' ∈ line then
    some (pyStrip (splitFirstColon (pyStrip line)).1,
          mkVal (pyStrip (splitFirstColon (pyStrip line)).2))
  else
    none

/-- Lines 27-30: fold the per-line rule over the file's lines,
starting from the empty dictionary. -/
def parseFuzzerStats (lines : List PyStr) : FuzzDict :=
  lines.foldl
    (fun d line =>
      match parseLine line with
      | some kv => dictInsert d kv.1 kv.2
      | none => d)
    []

/-- `FuzzerMonitor.read_fuzzer_file` (lines 21-37): the `none` input
stands for `FileNotFoundError` or any other read exception, both of
which the source logs and turns into `None`; a readable file is parsed
line by line and always yields a dictionary. -/
def read_fuzzer_file : Option (List PyStr) → Option FuzzDict
  | none => none
  | some lines => some (parseFuzzerStats lines)

example : parseLine ("time_wo_finds: 42".toList) =
    some ("time_wo_finds".toList, FuzzVal.int 42) := by decide

example : parseLine ("time_wo_finds: 12:30".toList) =
    some ("time_wo_finds".toList, FuzzVal.str "12:30".toList) := by decide

example : parseLine ("no separator here".toList) = none := by decide

example : pyIntOfString " 12:30".toList = none := by decide

example : pyIntOfString "  42 ".toList = some 42 := by decide

/-! ## The monitor tick (`check_fuzzer_status`, lines 56-84) -/

/-- The configuration held by `FuzzerMonitor.__init__` that the tick
logic consults: the stop threshold and the reschedule interval. -/
structure MonitorConfig where
  max_time_without_finds : Int
  check_interval : Nat
deriving DecidableEq, Repr

/-- Verdict of one tick: keep monitoring (`go`, the code falls through
to line 84 and reschedules) or stop the fuzzer (`stop`, lines 62-65). -/
inductive Verdict
  | go
  | stop
deriving DecidableEq, Repr

/-- Unhandled Python exceptions that can escape `check_fuzzer_status`. -/
inductive PyError
  /-- `int(...)` applied to a non-numeric string (lines 61, 71-74, 44). -/
  | valueError
  /-- `time.localtime(...)` applied to a string (line 69). -/
  | typeError
  /-- `.get` called on `None` (line 77). -/
  | attributeError
  /-- an OS-level failure of the `pgrep` invocation not caught by
  line 45's `except subprocess.CalledProcessError` (line 43). -/
  | osError
deriving DecidableEq, Repr

/-- Observable outcome of one completed tick: the verdict, which report
lines were logged (lines 76-79), the value of `self.last_fuzzer_data`
after the tick (line 83 — or unchanged after the early return of
line 65), and the delay of the reschedule at line 84, if any. -/
structure TickOutcome where
  verdict : Verdict
  headerPrinted : Bool
  rowPrinted : Bool
  newState : Option FuzzDict
  nextDelay : Option Nat
deriving DecidableEq, Repr

/-- Dictionary keys used by the tick logic. -/
def timeWoFindsKey : PyStr := "time_wo_finds".toList

/-- Key of the timestamp of the last find. -/
def lastFindKey : PyStr := "last_find".toList

/-- Key of the corpus count. -/
def corpusCountKey : PyStr := "corpus_count".toList

/-- Key of the unique-crash count. -/
def uniqueCrashesKey : PyStr := "unique_crashes".toList

/-- Key of the unique-hang count. -/
def uniqueHangsKey : PyStr := "unique_hangs".toList

/-- Key of the execution count. -/
def execsDoneKey : PyStr := "execs_done".toList

/-- Line 69: `time.localtime(last_find)` is evaluated when `last_find`
is truthy; a truthy (non-empty) string raises `TypeError` there. -/
def line69Crash : FuzzVal → Bool
  | .int _ => false
  | .str s => !s.isEmpty

/-- One of lines 71-74: when the key is present, `int(...)` is applied
to its value and raises `ValueError` if the value is a non-numeric
string; an absent key just yields the text `N/A`. -/
def fieldCrash (d : FuzzDict) (k : PyStr) : Bool :=
  match dictGet? d k with
  | none => false
  | some v => (pyInt v).isNone

/-- Lines 71-74 in order: whether any of the four display fields
raises `ValueError`. -/
def displayCrash (d : FuzzDict) : Bool :=
  fieldCrash d corpusCountKey || fieldCrash d uniqueCrashesKey ||
  fieldCrash d uniqueHangsKey || fieldCrash d execsDoneKey

/-- Python `!=` between a value and `d.get(k)` (which may be `None`):
anything differs from `None`; otherwise structural inequality. -/
def pyNeqOpt (v : FuzzVal) : Option FuzzVal → Bool
  | none => true
  | some w => decide (v ≠ w)

/-- Line 75's condition: `self.last_fuzzer_data and last_find !=
self.last_fuzzer_data.get("last_find")`.  `None` and the empty
dictionary are falsy, so the second conjunct is then not evaluated. -/
def cond75 (st : Option FuzzDict) (last_find : FuzzVal) : Bool :=
  match st with
  | none => false
  | some prev => !prev.isEmpty && pyNeqOpt last_find (dictGet? prev lastFindKey)

/-- Lines 75-84 (after `last_find` is known not to crash line 69):
print a data row when line 75's condition holds; otherwise evaluate
line 77's `self.last_fuzzer_data.get("last_find") == None`, which
raises `AttributeError` when the stored state is `None`, prints the
header plus a data row when the lookup gives `None`, and prints
nothing otherwise.  Every non-crashed path then runs lines 83-84. -/
def reportStep (cfg : MonitorConfig) (st : Option FuzzDict) (d : FuzzDict)
    (last_find : FuzzVal) : Except PyError TickOutcome :=
  if displayCrash d then
    Except.error PyError.valueError
  else if cond75 st last_find then
    Except.ok ⟨Verdict.go, false, true, some d, some cfg.check_interval⟩
  else
    match st with
    | none => Except.error PyError.attributeError
    | some prev =>
      if (dictGet? prev lastFindKey).isNone then
        Except.ok ⟨Verdict.go, true, true, some d, some cfg.check_interval⟩
      else
        Except.ok ⟨Verdict.go, false, false, some d, some cfg.check_interval⟩

/-- Lines 67-84, the continue-verdict part of the tick: compute
`last_find = fuzzer_data.get("last_find", 0)`, crash on line 69 when it
is a truthy string, then run the reporting step. -/
def continuePart (cfg : MonitorConfig) (st : Option FuzzDict) (d : FuzzDict) :
    Except PyError TickOutcome :=
  if line69Crash (dictGetD d lastFindKey (FuzzVal.int 0)) then
    Except.error PyError.typeError
  else
    reportStep cfg st d (dictGetD d lastFindKey (FuzzVal.int 0))

/-- Lines 61-84, the branch of `check_fuzzer_status` taken when the
read produced a dictionary: line 61 applies `int(...)` to
`fuzzer_data.get("time_wo_finds", 0)` (raising `ValueError` on a
non-numeric string); when the result exceeds the threshold, lines 62-65
log, stop the fuzzer and return early — before line 83, so the stored
state is left as it was and nothing is rescheduled; otherwise the
continue part runs. -/
def checkParsed (cfg : MonitorConfig) (st : Option FuzzDict) (d : FuzzDict) :
    Except PyError TickOutcome :=
  match pyInt (dictGetD d timeWoFindsKey (FuzzVal.int 0)) with
  | none => Except.error PyError.valueError
  | some time_wo_finds =>
    if time_wo_finds > cfg.max_time_without_finds then
      Except.ok ⟨Verdict.stop, false, false, st, none⟩
    else
      continuePart cfg st d

/-- `FuzzerMonitor.check_fuzzer_status` (lines 56-84), as a function of
the configuration, the stored `self.last_fuzzer_data` (a dictionary, or
`none` for Python `None`), and the raw file-read result of this tick.
A failed read (line 80) logs at debug level, stores `None` and
reschedules; a successful read goes through `checkParsed`. -/
def check_fuzzer_status (cfg : MonitorConfig) (st : Option FuzzDict)
    (fileRead : Option (List PyStr)) : Except PyError TickOutcome :=
  match read_fuzzer_file fileRead with
  | none =>
    Except.ok ⟨Verdict.go, false, false, none, some cfg.check_interval⟩
  | some d =>
    checkParsed cfg st d

deriving instance DecidableEq for Except

/-- The verdict of a tick, when the tick completed without an
unhandled exception. -/
def verdictOf : Except PyError TickOutcome → Option Verdict
  | .ok o => some o.verdict
  | .error _ => none

example : check_fuzzer_status ⟨10, 60⟩ (some []) (some ["time_wo_finds: 100".toList]) =
    Except.ok ⟨Verdict.stop, false, false, some [], none⟩ := by decide

example : check_fuzzer_status ⟨3600, 60⟩ (some []) (some ["time_wo_finds: 100".toList]) =
    Except.ok ⟨Verdict.go, true, true,
      some [(timeWoFindsKey, FuzzVal.int 100)], some 60⟩ := by decide

example : check_fuzzer_status ⟨3600, 60⟩ none (some ["last_find: 5".toList]) =
    Except.error PyError.attributeError := by decide

example : check_fuzzer_status ⟨3600, 60⟩ (some []) (some ["time_wo_finds: 12:30".toList]) =
    Except.error PyError.valueError := by decide

example : check_fuzzer_status ⟨3600, 60⟩ (some [(lastFindKey, FuzzVal.int 5)])
    (some ["last_find: 5".toList]) =
    Except.ok ⟨Verdict.go, false, false, some [(lastFindKey, FuzzVal.int 5)], some 60⟩ := by
  decide

/-! ## Process search and termination (lines 39-54) -/

/-- Outcome of the `subprocess.check_output(["pgrep", "-f", "afl-fuzz"])`
call at line 43: a successful run with its whitespace-split stdout
tokens, a non-zero exit status (`subprocess.CalledProcessError`, raised
by `pgrep` when nothing matches), or any other failure of the search
tool (e.g. `FileNotFoundError` when the binary is absent — an
`OSError`, not a `CalledProcessError`). -/
inductive PgrepResult
  | output : List PyStr → PgrepResult
  | nonzeroExit : PgrepResult
  | toolError : PgrepResult
deriving DecidableEq, Repr

/-- `FuzzerMonitor.get_afl_fuzz_pids` (lines 39-46): on success convert
each token with `int(...)`; the `except` clause at line 45 catches only
`subprocess.CalledProcessError` and returns `[]`; any other failure of
the search propagates. -/
def get_afl_fuzz_pids : PgrepResult → Except PyError (List Int)
  | .output toks =>
    match toks.mapM pyIntOfString with
    | some pids => Except.ok pids
    | none => Except.error PyError.valueError
  | .nonzeroExit => Except.ok []
  | .toolError => Except.error PyError.osError

/-- `signal.SIGTERM`. -/
def SIGTERM : Nat := 15

/-- `FuzzerMonitor.stop_fuzzer` (lines 48-54): locate the PIDs and send
`SIGTERM` to each one, in order; the result lists the `os.kill` calls
made.  An empty PID list sends nothing. -/
def stop_fuzzer (r : PgrepResult) : Except PyError (List (Int × Nat)) :=
  (get_afl_fuzz_pids r).map (fun pids => pids.map (fun p => (p, SIGTERM)))

example : get_afl_fuzz_pids (PgrepResult.output ["120".toList, "121".toList]) =
    Except.ok [120, 121] := by decide

example : stop_fuzzer PgrepResult.nonzeroExit = Except.ok [] := by decide

example : stop_fuzzer (PgrepResult.output ["120".toList]) =
    Except.ok [(120, 15)] := by decide

/-! ## The scheduler loop (`run`, lines 86-91) -/

/-- The delays of the checks scheduled by successive ticks, given the
per-tick file-read results supplied by the environment.  Each completed
continue tick executes line 84 and schedules exactly one next check
after `check_interval`; a stop tick returns at line 65 without
rescheduling, and a tick that dies of an unhandled exception schedules
nothing either. -/
def loopSteps (cfg : MonitorConfig) : Option FuzzDict → List (Option (List PyStr)) → List Nat
  | _, [] => []
  | st, r :: rs =>
    match check_fuzzer_status cfg st r with
    | .error _ => []
    | .ok out =>
      match out.nextDelay with
      | none => []
      | some delay => delay :: loopSteps cfg out.newState rs

/-- `FuzzerMonitor.run` (lines 86-91): the first check is scheduled
with delay 10 (line 90), starting from the initial empty
`self.last_fuzzer_data` of line 19; the later delays come from the
ticks themselves. -/
def runDelays (cfg : MonitorConfig) (reads : List (Option (List PyStr))) : List Nat :=
  10 :: loopSteps cfg (some []) reads

example : runDelays ⟨3600, 60⟩ [none, some ["time_wo_finds: 100".toList]] =
    [10, 60] := by decide

example : runDelays ⟨3600, 60⟩ [none, none, none] = [10, 60, 60, 60] := by decide

example : runDelays ⟨10, 60⟩ [some [], some ["time_wo_finds: 100".toList], some []] =
    [10, 60] := by decide

/-! ## Helper lemmas -/

/-- Every completed pass through lines 67-84 has verdict continue,
stores the freshly read dictionary, and schedules after the interval. -/
theorem continuePart_ok (cfg : MonitorConfig) (st : Option FuzzDict) (d : FuzzDict)
    (out : TickOutcome) (h : continuePart cfg st d = Except.ok out) :
    out.verdict = Verdict.go ∧ out.newState = some d ∧
    out.nextDelay = some cfg.check_interval := by
  unfold continuePart reportStep at h
  split at h
  · simp at h
  · split at h
    · simp at h
    · split at h
      · cases h
        exact ⟨rfl, rfl, rfl⟩
      · split at h
        · simp at h
        · split at h
          · cases h
            exact ⟨rfl, rfl, rfl⟩
          · cases h
            exact ⟨rfl, rfl, rfl⟩

/-- Every completed tick either stopped (leaving the stored state
untouched, scheduling nothing) or continued (storing the read result,
scheduling after the interval). -/
theorem checkParsed_ok_cases (cfg : MonitorConfig) (st : Option FuzzDict)
    (d : FuzzDict) (out : TickOutcome)
    (h : checkParsed cfg st d = Except.ok out) :
    (out.verdict = Verdict.stop ∧ out.newState = st ∧ out.nextDelay = none) ∨
    (out.verdict = Verdict.go ∧ out.newState = some d ∧
      out.nextDelay = some cfg.check_interval) := by
  unfold checkParsed at h
  split at h
  · simp at h
  · split at h
    · cases h
      left
      exact ⟨rfl, rfl, rfl⟩
    · right
      exact continuePart_ok cfg st d out h

/-- Every completed tick either stopped (leaving the stored state
untouched, scheduling nothing) or continued (storing the read result,
scheduling after the interval). -/
theorem check_ok_cases (cfg : MonitorConfig) (st : Option FuzzDict)
    (fileRead : Option (List PyStr)) (out : TickOutcome)
    (h : check_fuzzer_status cfg st fileRead = Except.ok out) :
    (out.verdict = Verdict.stop ∧ out.newState = st ∧ out.nextDelay = none) ∨
    (out.verdict = Verdict.go ∧ out.newState = read_fuzzer_file fileRead ∧
      out.nextDelay = some cfg.check_interval) := by
  cases fileRead with
  | none =>
    have h2 : check_fuzzer_status cfg st none =
        Except.ok ⟨Verdict.go, false, false, none, some cfg.check_interval⟩ := rfl
    rw [h2] at h
    cases h
    right
    exact ⟨rfl, rfl, rfl⟩
  | some lines =>
    have h2 : check_fuzzer_status cfg st (some lines) =
        checkParsed cfg st (parseFuzzerStats lines) := rfl
    rw [h2] at h
    rcases checkParsed_ok_cases cfg st (parseFuzzerStats lines) out h with hc | hc
    · exact Or.inl hc
    · exact Or.inr ⟨hc.1, hc.2.1, hc.2.2⟩

/-- Reduction of a successfully-read tick once line 61's conversion is
known: the threshold test of line 62 decides between the early stop
return and the continue part. -/
theorem check_reduce (cfg : MonitorConfig) (st : Option FuzzDict)
    (lines : List PyStr) (t : Int)
    (ht : pyInt (dictGetD (parseFuzzerStats lines) timeWoFindsKey (FuzzVal.int 0)) = some t) :
    check_fuzzer_status cfg st (some lines) =
      if t > cfg.max_time_without_finds then
        Except.ok ⟨Verdict.stop, false, false, st, none⟩
      else
        continuePart cfg st (parseFuzzerStats lines) := by
  have h2 : check_fuzzer_status cfg st (some lines) =
      checkParsed cfg st (parseFuzzerStats lines) := rfl
  rw [h2]
  unfold checkParsed
  rw [ht]

/-- `splitFirstColon` splits its input around an occurrence of `':'`:
re-inserting the colon between the two parts restores the string. -/
theorem splitFirstColon_append (s : PyStr) (h : ':' ∈ s) :
    (splitFirstColon s).1 ++ ':' :: (splitFirstColon s).2 = s := by
  induction s with
  | nil => cases h
  | cons c rest ih =>
    by_cases hc : c = ':'
    · subst hc
      simp [splitFirstColon]
    · have hr : ':' ∈ rest := by
        rcases List.mem_cons.mp h with h1 | h1
        · exact absurd h1.symm hc
        · exact h1
      simp only [splitFirstColon, if_neg hc]
      rw [List.cons_append, ih hr]

/-- The part before the split contains no colon: the split happens at
the FIRST colon of the string. -/
theorem splitFirstColon_first (s : PyStr) : ':' ∉ (splitFirstColon s).1 := by
  induction s with
  | nil => simp [splitFirstColon]
  | cons c rest ih =>
    by_cases hc : c = ':'
    · subst hc
      simp [splitFirstColon]
    · simp only [splitFirstColon, if_neg hc]
      intro hmem
      rcases List.mem_cons.mp hmem with h1 | h1
      · exact hc h1.symm
      · exact ih h1

/-- An element not satisfying the dropped predicate survives
`dropWhile`. -/
theorem mem_dropWhile_of_not (p : Char → Bool) (c : Char) (hc : p c = false)
    (l : List Char) (h : c ∈ l) : c ∈ l.dropWhile p := by
  induction l with
  | nil => cases h
  | cons a rest ih =>
    rcases List.mem_cons.mp h with h1 | h1
    · subst h1
      simp [List.dropWhile_cons, hc]
    · by_cases ha : p a = true
      · simpa [List.dropWhile_cons, ha] using ih h1
      · simp only [List.dropWhile_cons, ha, if_false, Bool.false_eq_true]
        exact List.mem_cons_of_mem a h1

/-- A non-whitespace character survives `pyStrip`. -/
theorem mem_pyStrip (c : Char) (hc : c.isWhitespace = false) (s : PyStr)
    (h : c ∈ s) : c ∈ pyStrip s := by
  unfold pyStrip
  rw [List.mem_reverse]
  apply mem_dropWhile_of_not _ _ hc
  rw [List.mem_reverse]
  exact mem_dropWhile_of_not _ _ hc _ h

/-! ## Claims -/

/-- C1: for every snapshot successfully read on a tick, when line 61's
conversion of the snapshot's `time_wo_finds` entry (defaulting to 0
when the key is absent) yields the integer `t`, the tick's verdict is
stop if and only if `t` is strictly greater than the configured
`max_time_without_finds`; in particular `t` equal to the threshold
gives verdict continue. -/
theorem c1_stop_iff_over_threshold (cfg : MonitorConfig) (st : Option FuzzDict)
    (lines : List PyStr) (t : Int)
    (ht : pyInt (dictGetD (parseFuzzerStats lines) timeWoFindsKey (FuzzVal.int 0)) = some t) :
    verdictOf (check_fuzzer_status cfg st (some lines)) = some Verdict.stop ↔
      t > cfg.max_time_without_finds := by
  rw [check_reduce cfg st lines t ht]
  by_cases hgt : t > cfg.max_time_without_finds
  · simp [hgt, verdictOf]
  · rw [if_neg hgt]
    constructor
    · intro h
      cases hc : continuePart cfg st (parseFuzzerStats lines) with
      | error e =>
        rw [hc] at h
        simp [verdictOf] at h
      | ok out =>
        rw [hc] at h
        have hgo := (continuePart_ok cfg st (parseFuzzerStats lines) out hc).1
        simp [verdictOf, hgo] at h
    · intro h
      exact absurd h hgt

/-- C1 witness: with threshold 10 and a file reporting
`time_wo_finds: 100`, the verdict is stop. -/
theorem c1_witness :
    verdictOf (check_fuzzer_status ⟨10, 60⟩ (some [])
      (some ["time_wo_finds: 100".toList])) = some Verdict.stop :=
  (c1_stop_iff_over_threshold ⟨10, 60⟩ (some []) ["time_wo_finds: 100".toList] 100
    (by decide)).mpr (by decide)

/-- C2 counterexample: on a stop-verdict tick the stored state is NOT
overwritten with the newly read snapshot.  With threshold 10, stored
state `{}` and a file reporting `time_wo_finds: 100`, the tick stops
but `last_fuzzer_data` stays the old empty dictionary, not the new
snapshot — line 65's `return` runs before line 83. -/
theorem c2_counterexample :
    check_fuzzer_status ⟨10, 60⟩ (some []) (some ["time_wo_finds: 100".toList]) =
      Except.ok ⟨Verdict.stop, false, false, some [], none⟩ ∧
    read_fuzzer_file (some ["time_wo_finds: 100".toList]) =
      some [(timeWoFindsKey, FuzzVal.int 100)] ∧
    (some [] : Option FuzzDict) ≠ some [(timeWoFindsKey, FuzzVal.int 100)] := by
  refine ⟨by decide, by decide, by decide⟩

/-- C2 amended: after every tick that completes with verdict continue
(including failed-read ticks) the stored state is overwritten with the
newly read snapshot or the absence marker; a stop-verdict tick instead
returns before the overwrite and leaves the stored state unchanged. -/
theorem c2_state_overwrite (cfg : MonitorConfig) (st : Option FuzzDict)
    (fileRead : Option (List PyStr)) (out : TickOutcome)
    (hok : check_fuzzer_status cfg st fileRead = Except.ok out) :
    (out.verdict = Verdict.go → out.newState = read_fuzzer_file fileRead) ∧
    (out.verdict = Verdict.stop → out.newState = st) := by
  rcases check_ok_cases cfg st fileRead out hok with ⟨h1, h2, _⟩ | ⟨h1, h2, _⟩
  · constructor
    · intro hg
      rw [h1] at hg
      cases hg
    · intro _
      exact h2
  · constructor
    · intro _
      exact h2
    · intro hs
      rw [h1] at hs
      cases hs

/-- C2 amended witness: a continue tick whose read failed stores the
absence marker. -/
theorem c2_witness :
    (⟨Verdict.go, false, false, none, some 60⟩ : TickOutcome).newState =
      read_fuzzer_file none :=
  (c2_state_overwrite ⟨3600, 60⟩ (some [(lastFindKey, FuzzVal.int 1)]) none
    ⟨Verdict.go, false, false, none, some 60⟩ (by decide)).1 (by decide)

/-- C3 (code bug): when the stored state is the absence marker `None`
(the previous tick's read failed) and the current tick reads a
snapshot successfully, line 77 evaluates `None.get("last_find")` and
the tick dies of an `AttributeError` instead of printing the header
and data rows: with threshold 3600 and a file containing
`last_find: 5`, the evaluation is an unhandled exception. -/
theorem c3_absent_state_attribute_error :
    check_fuzzer_status ⟨3600, 60⟩ none (some ["last_find: 5".toList]) =
      Except.error PyError.attributeError := by decide

/-- C4: on a successfully read tick with verdict continue, when a
previous snapshot exists and holds a `last_find` entry equal to the new
snapshot's `last_find` value (default 0 when absent, as line 67
computes it), neither a data row nor a header row is printed. -/
theorem c4_unchanged_prints_nothing (cfg : MonitorConfig) (prev : FuzzDict)
    (lines : List PyStr) (out : TickOutcome)
    (hok : check_fuzzer_status cfg (some prev) (some lines) = Except.ok out)
    (hgo : out.verdict = Verdict.go)
    (heq : dictGet? prev lastFindKey =
      some (dictGetD (parseFuzzerStats lines) lastFindKey (FuzzVal.int 0))) :
    out.rowPrinted = false ∧ out.headerPrinted = false := by
  have h2 : check_fuzzer_status cfg (some prev) (some lines) =
      checkParsed cfg (some prev) (parseFuzzerStats lines) := rfl
  rw [h2] at hok
  unfold checkParsed at hok
  split at hok
  · simp at hok
  · split at hok
    · cases hok
      cases hgo
    · have hcf : cond75 (some prev)
          (dictGetD (parseFuzzerStats lines) lastFindKey (FuzzVal.int 0)) = false := by
        simp [cond75, heq, pyNeqOpt]
      unfold continuePart reportStep at hok
      by_cases h69 : line69Crash
          (dictGetD (parseFuzzerStats lines) lastFindKey (FuzzVal.int 0)) = true
      · rw [if_pos h69] at hok
        simp at hok
      · rw [if_neg h69] at hok
        by_cases hdc : displayCrash (parseFuzzerStats lines) = true
        · rw [if_pos hdc] at hok
          simp at hok
        · rw [if_neg hdc] at hok
          rw [if_neg (by simp [hcf])] at hok
          simp only [heq, Option.isNone_some] at hok
          simp at hok
          rw [hok.symm]
          exact ⟨rfl, rfl⟩

/-- C4 witness: previous snapshot `{last_find: 5}`, new file content
`last_find: 5` — the completed continue tick prints nothing. -/
theorem c4_witness :
    (⟨Verdict.go, false, false, some [(lastFindKey, FuzzVal.int 5)], some 60⟩ :
      TickOutcome).rowPrinted = false ∧
    (⟨Verdict.go, false, false, some [(lastFindKey, FuzzVal.int 5)], some 60⟩ :
      TickOutcome).headerPrinted = false :=
  c4_unchanged_prints_nothing ⟨3600, 60⟩ [(lastFindKey, FuzzVal.int 5)]
    ["last_find: 5".toList]
    ⟨Verdict.go, false, false, some [(lastFindKey, FuzzVal.int 5)], some 60⟩
    (by decide) (by decide) (by decide)

/-- C5: the stats reader processes the file line by line; a line
contributes a key-value pair exactly when it contains a `':'`; the
(stripped) line splits at its FIRST colon — the part before the split
contains no colon, and gluing the parts back around a colon restores
the stripped line; key and value are stripped of surrounding
whitespace; a value consisting solely of decimal digits is stored as an
integer and any other value as a string; and parsing a readable file
always yields a snapshot, never a failure, whatever the values hold. -/
theorem c5_line_parsing_rule (line : PyStr) :
    (':' ∉ line → parseLine line = none) ∧
    (':' ∈ line →
      parseLine line = some (pyStrip (splitFirstColon (pyStrip line)).1,
        mkVal (pyStrip (splitFirstColon (pyStrip line)).2)) ∧
      (splitFirstColon (pyStrip line)).1 ++ ':' :: (splitFirstColon (pyStrip line)).2 =
        pyStrip line ∧
      ':' ∉ (splitFirstColon (pyStrip line)).1) ∧
    (∀ v : PyStr, v ≠ [] → (∀ c ∈ v, c.isDigit = true) →
      mkVal v = FuzzVal.int (digitsToNat v)) ∧
    (∀ v : PyStr, (v = [] ∨ ∃ c ∈ v, c.isDigit = false) →
      mkVal v = FuzzVal.str v) ∧
    (∀ ls : List PyStr, read_fuzzer_file (some ls) = some (parseFuzzerStats ls)) := by
  refine ⟨?_, ?_, ?_, ?_, fun ls => rfl⟩
  · intro h
    simp [parseLine, h]
  · intro h
    refine ⟨by simp [parseLine, h], ?_, splitFirstColon_first (pyStrip line)⟩
    exact splitFirstColon_append (pyStrip line) (mem_pyStrip ':' (by decide) line h)
  · intro v hne hdig
    have : pyIsDigit v = true := by
      simp [pyIsDigit, List.isEmpty_iff, hne, List.all_eq_true]
      intro c hc
      exact hdig c hc
    simp [mkVal, this]
  · intro v hcase
    have : pyIsDigit v = false := by
      rcases hcase with h1 | ⟨c, hc, hcd⟩
      · simp [pyIsDigit, h1]
      · simp [pyIsDigit, List.all_eq_true]
        intro _
        exact ⟨c, hc, by simp [hcd]⟩
    simp [mkVal, this]

/-- C5 witness: the line `corpus_count: 5` parses to the integer
entry 5 under key `corpus_count`. -/
theorem c5_witness :
    parseLine ("corpus_count: 5".toList) =
      some ("corpus_count".toList, FuzzVal.int 5) := by
  have h := (c5_line_parsing_rule ("corpus_count: 5".toList)).2.1 (by decide)
  exact h.1.trans (by decide)

/-- C6: on a tick whose file read fails (missing file or any other read
error), the read signals no-snapshot, the tick prints neither a header
nor a data row, the verdict is continue, no exception escapes, and the
next check is scheduled after the normal `check_interval`. -/
theorem c6_read_failure_is_recoverable (cfg : MonitorConfig) (st : Option FuzzDict) :
    read_fuzzer_file none = none ∧
    check_fuzzer_status cfg st none =
      Except.ok ⟨Verdict.go, false, false, none, some cfg.check_interval⟩ :=
  ⟨rfl, rfl⟩

/-- C7: a successfully read snapshot whose `time_wo_finds` key holds a
non-digit string — here from the line `time_wo_finds: 12:30`, whose
value contains a colon and is therefore stored as the string `12:30` —
makes line 61's `int(...)` raise an unhandled `ValueError` that escapes
the tick handler, for every configuration and stored state. -/
theorem c7_nondigit_time_wo_finds_raises (cfg : MonitorConfig) (st : Option FuzzDict) :
    read_fuzzer_file (some ["time_wo_finds: 12:30".toList]) =
      some [(timeWoFindsKey, FuzzVal.str "12:30".toList)] ∧
    check_fuzzer_status cfg st (some ["time_wo_finds: 12:30".toList]) =
      Except.error PyError.valueError :=
  ⟨by decide, rfl⟩

/-- C8 counterexample: not every failure of the process search yields
an empty PID set.  Line 45 catches only `subprocess.CalledProcessError`
(a non-zero exit status); a failure of the search tool itself — e.g.
`pgrep` missing, raising `OSError` — propagates out of
`get_afl_fuzz_pids` instead of returning the empty list. -/
theorem c8_counterexample :
    get_afl_fuzz_pids PgrepResult.toolError = Except.error PyError.osError ∧
    Except.error PyError.osError ≠ (Except.ok [] : Except PyError (List Int)) := by
  refine ⟨by decide, by decide⟩

/-- C8 amended: only a non-zero exit status of the search command
(`subprocess.CalledProcessError`) is treated as "no processes found",
yielding the empty PID list; other failures of the search mechanism
propagate.  Whenever locating returns a PID list, `stop_fuzzer` sends
exactly one SIGTERM to each listed PID, and sends nothing when the list
is empty. -/
theorem c8_sigterm_per_pid (r : PgrepResult) (pids : List Int)
    (h : get_afl_fuzz_pids r = Except.ok pids) :
    stop_fuzzer r = Except.ok (pids.map (fun p => (p, SIGTERM))) ∧
    (r = PgrepResult.nonzeroExit → pids = []) ∧
    (pids = [] → stop_fuzzer r = Except.ok []) := by
  refine ⟨by rw [stop_fuzzer, h]; rfl, ?_, ?_⟩
  · intro hr
    subst hr
    have h2 : get_afl_fuzz_pids PgrepResult.nonzeroExit =
        (Except.ok [] : Except PyError (List Int)) := rfl
    rw [h2] at h
    cases h
    rfl
  · intro hp
    subst hp
    rw [stop_fuzzer, h]
    rfl

/-- C8 witness: a non-zero `pgrep` exit gives the empty PID list and no
signal is sent. -/
theorem c8_witness : stop_fuzzer PgrepResult.nonzeroExit = Except.ok [] :=
  (c8_sigterm_per_pid PgrepResult.nonzeroExit [] (by decide)).2.2 rfl

/-- C9: the first check is scheduled 10 time units after start, not a
full interval; every tick that completes with verdict continue
schedules exactly one next check, `check_interval` units ahead; and a
tick with verdict stop schedules nothing, ending the (single-pending-
event) schedule. -/
theorem c9_scheduling (cfg : MonitorConfig) (st : Option FuzzDict)
    (reads : List (Option (List PyStr))) (r : Option (List PyStr))
    (rs : List (Option (List PyStr))) (out : TickOutcome) :
    (runDelays cfg reads).head? = some 10 ∧
    (∀ d ∈ loopSteps cfg st reads, d = cfg.check_interval) ∧
    (check_fuzzer_status cfg st r = Except.ok out → out.verdict = Verdict.stop →
      loopSteps cfg st (r :: rs) = []) ∧
    (check_fuzzer_status cfg st r = Except.ok out → out.verdict = Verdict.go →
      loopSteps cfg st (r :: rs) =
        cfg.check_interval :: loopSteps cfg out.newState rs) := by
  refine ⟨rfl, ?_, ?_, ?_⟩
  · induction reads generalizing st with
    | nil =>
      intro d hd
      simp [loopSteps] at hd
    | cons r0 rs0 ih =>
      intro d hd
      rw [loopSteps] at hd
      cases hc : check_fuzzer_status cfg st r0 with
      | error e =>
        rw [hc] at hd
        simp at hd
      | ok o =>
        rw [hc] at hd
        rcases check_ok_cases cfg st r0 o hc with ⟨_, _, h3⟩ | ⟨_, _, h3⟩
        · simp only [h3] at hd
          simp at hd
        · simp only [h3, List.mem_cons] at hd
          rcases hd with hd | hd
          · exact hd
          · exact ih o.newState d hd
  · intro hok hstop
    rcases check_ok_cases cfg st r out hok with ⟨_, _, h3⟩ | ⟨h1, _, _⟩
    · rw [loopSteps, hok]
      simp only [h3]
    · rw [h1] at hstop
      cases hstop
  · intro hok hgo
    rcases check_ok_cases cfg st r out hok with ⟨h1, _, _⟩ | ⟨_, _, h3⟩
    · rw [h1] at hgo
      cases hgo
    · rw [loopSteps, hok]
      simp only [h3]

/-- C9 witness: a continue tick (here with a failed read) schedules the
next check 60 units ahead, and the initial delay is 10. -/
theorem c9_witness :
    loopSteps ⟨3600, 60⟩ (some []) [none] =
      60 :: loopSteps ⟨3600, 60⟩ none [] :=
  (c9_scheduling ⟨3600, 60⟩ (some []) [] none []
    ⟨Verdict.go, false, false, none, some 60⟩).2.2.2 (by decide) (by decide)

/-- C10: parsing is deterministic and idempotent — two reads of equal
status-file contents yield equal snapshots. -/
theorem c10_parse_deterministic (c1 c2 : List PyStr) (h : c1 = c2) :
    read_fuzzer_file (some c1) = read_fuzzer_file (some c2) := by
  rw [h]

/-- C10 witness: re-parsing the same one-line content yields the same
snapshot. -/
theorem c10_witness :
    read_fuzzer_file (some ["execs_done: 12".toList]) =
      read_fuzzer_file (some ["execs_done: 12".toList]) :=
  c10_parse_deterministic ["execs_done: 12".toList] ["execs_done: 12".toList] rfl

end MonitorFuzzing
